import Mathlib

/-!
Shallow embedding of the civic-issue tracking backend
(`backend/app/routes/{issues,assignments,updates,users}.py` and
`backend/app/services/issues_service.py`).

The external data store (`supabase_client.py`) exposes generic
`get_data` / `insert_data` / `update_data` / `delete_data` helpers; each
route handler combines them.  We model the database as explicit lists of
rows and every handler as a pure function from a database state (plus the
acting user's profile, resolved by the auth dependency) to a new database
state paired with either a response value or an HTTP error.  `insert_data`
is modelled as appending a row whose fresh id is passed as an argument;
`get_data(table, {"col": v})` as `List.filter`; `update_data` as a map
patching every matching row (returning the patched rows, as the client
does); `delete_data` as a filter dropping the matching rows.

Fields of the rows that no modelled operation reads or writes
(`created_at`, `assigned_at`, the db-trigger-maintained `upvotes`,
`image_url`, response-only join fields such as `staff_name`) are omitted;
timestamps are abstract `Nat` ticks.  Notification side effects are
best-effort (failures are caught and logged, never re-raised), so they do
not affect state or responses and are not modelled.
-/

namespace SihV4

inductive Role where
  | citizen
  | staff
  | supervisor
  | admin
deriving DecidableEq, Repr

inductive IssueStatus where
  | pending
  | in_progress
  | resolved
deriving DecidableEq, Repr

inductive AsgStatus where
  | assigned
  | in_progress
  | completed
deriving DecidableEq, Repr

/-- A row of `profiles` (see schema `ProfileResponse` / route usage). -/
structure Profile where
  id : String
  full_name : String
  role : Role
  department : Option String
deriving DecidableEq, Repr

/-- A row of `issues`.  `category` is a free string validated against the
allowed list where the code validates it. -/
structure Issue where
  id : Nat
  title : String
  description : String
  category : String
  status : IssueStatus
  citizen_id : String
  latitude : Option ℚ
  longitude : Option ℚ
  updated_at : Nat
deriving DecidableEq, Repr

/-- A row of `issue_assignments`. -/
structure Assignment where
  id : Nat
  issue_id : Nat
  staff_id : String
  assigned_by : String
  status : AsgStatus
  notes : Option String
deriving DecidableEq, Repr

/-- A row of `issue_updates`. -/
structure IssueUpdateRow where
  id : Nat
  issue_id : Nat
  staff_id : String
  update_text : String
deriving DecidableEq, Repr

/-- The database state: one list of rows per table touched by the
modelled handlers.  A vote row is its composite key `(issue_id, user_id)`. -/
structure DB where
  profiles : List Profile
  issues : List Issue
  assignments : List Assignment
  updates : List IssueUpdateRow
  votes : List (Nat × String)
deriving DecidableEq, Repr

/-- An HTTP error as raised by `HTTPException(status_code, detail)`.
The spec's error taxonomy maps onto these codes: `NotFound` ↦ 404,
`PermissionDenied` ↦ 403, `Conflict` and `ValidationError` ↦ 400
(distinguished by `detail`), internal/upstream failure ↦ 500. -/
structure HTTPError where
  code : Nat
  detail : String
deriving DecidableEq, Repr

/-- Every handler returns the successor database state together with a
response or an error (guards leave the state unchanged; some failures
occur after a partial mutation). -/
abbrev Handler (ρ : Type) := DB × Except HTTPError ρ

/-- `update_data("issues", {"id": iid}, {"status": st})`: patch only the
`status` column of every matching row. -/
def setIssueStatus (issues : List Issue) (iid : Nat) (st : IssueStatus) : List Issue :=
  issues.map fun i => if i.id = iid then { i with status := st } else i

/-- Request body `AssignmentCreate` (`schemas.py`): `assigned_by` is
overwritten by the handler, `status` is absent (store default). -/
structure AssignmentCreate where
  issue_id : Nat
  staff_id : String
  notes : Option String
deriving DecidableEq, Repr

/-- The duplicate-active-assignment store query of `create_assignment`:
`get_data("issue_assignments", {"issue_id": ..., "staff_id": ...,
"status": ["assigned", "in_progress"]})`. -/
def activeDupQuery (db : DB) (a : AssignmentCreate) : List Assignment :=
  db.assignments.filter fun x =>
    decide (x.issue_id = a.issue_id) && decide (x.staff_id = a.staff_id) &&
    (decide (x.status = AsgStatus.assigned) ||
     decide (x.status = AsgStatus.in_progress))

/-- `POST /assignments/` (`routes/assignments.py`, `create_assignment`).
`require_roles(["admin", "supervisor"])` guards entry.  `newId` is the
fresh id the store gives the inserted row.  The inserted row's `status`
column is the store's default; modelled from the spec: assignments are
created active (`assigned`, spec §3/§4.3) — no claim depends on this
default.  The post-insert re-fetch joins display names; the join fields do
not affect state and the response is modelled as the assignment row. -/
def create_assignment (db : DB) (actor : Profile) (a : AssignmentCreate)
    (newId : Nat) : Handler Assignment :=
  if ¬ (actor.role = Role.admin ∨ actor.role = Role.supervisor) then
    (db, .error ⟨403, "Insufficient permissions"⟩)
  else
    match db.issues.filter (fun i => decide (i.id = a.issue_id)) with
    | [] => (db, .error ⟨404, "Issue not found"⟩)
    | issue :: _ =>
      match db.profiles.filter (fun p => decide (p.id = a.staff_id)) with
      | [] => (db, .error ⟨404, "Staff member not found"⟩)
      | staff_member :: _ =>
        if staff_member.role ≠ Role.staff then
          (db, .error ⟨400, "User is not a staff member"⟩)
        else if actor.role = Role.supervisor ∧
            actor.department ≠ staff_member.department then
          (db, .error ⟨403, "Cannot assign to staff outside your department"⟩)
        else if activeDupQuery db a ≠ [] then
          (db, .error ⟨400, "Issue is already assigned to this staff member"⟩)
        else
          let newAsg : Assignment :=
            { id := newId, issue_id := a.issue_id, staff_id := a.staff_id
              assigned_by := actor.id, status := AsgStatus.assigned
              notes := a.notes }
          let db1 : DB := { db with assignments := db.assignments ++ [newAsg] }
          let db2 : DB :=
            if issue.status = IssueStatus.pending then
              { db1 with issues := setIssueStatus db1.issues a.issue_id IssueStatus.in_progress }
            else db1
          match db2.assignments.filter (fun x => decide (x.id = newId)) with
          | [] => (db2, .error ⟨500, "Failed to retrieve created assignment"⟩)
          | created :: _ => (db2, .ok created)

/-- Request body `AssignmentUpdate` (`schemas.py`): `status` is a required
field, `notes` is optional; `.dict(exclude_unset=True)` drops `notes` when
the caller omitted it, so `notes = none` models an omitted field and
`notes = some v` a supplied value (`v = none` being a supplied null). -/
structure AssignmentUpdate where
  status : AsgStatus
  notes : Option (Option String)
deriving DecidableEq, Repr

/-- Applying `update_data("issue_assignments", {"id": ...}, update_dict)`
to one row: `status` is always in the dict, `notes` only when supplied. -/
def applyAssignmentUpdate (u : AssignmentUpdate) (x : Assignment) : Assignment :=
  { x with status := u.status
           notes := match u.notes with | none => x.notes | some v => v }

/-- The repeated supervisor department gate of `update_assignment` /
`delete_assignment` / `get_assignment`: fetch the assigned staff's
profile; deny only when a profile was found and its department differs
from the supervisor's (a missing profile skips the check). -/
def supervisorDeptBlocked (db : DB) (actor : Profile) (staff_id : String) : Bool :=
  match db.profiles.filter (fun p => decide (p.id = staff_id)) with
  | [] => false
  | s :: _ => decide (s.department ≠ actor.department)

/-- `PUT /assignments/{assignment_id}` (`routes/assignments.py`,
`update_assignment`).  Any authenticated actor reaches the handler; staff
may only touch their own assignment, supervisors only assignments of
staff in their department.  After patching the row, the issue-status
cascade runs: on `completed`, the issue is resolved when every assignment
of the issue (re-read after the patch) is completed; on `in_progress`,
the issue is forced to `in_progress`. -/
def update_assignment (db : DB) (actor : Profile) (assignment_id : Nat)
    (u : AssignmentUpdate) : Handler Assignment :=
  match db.assignments.filter (fun x => decide (x.id = assignment_id)) with
  | [] => (db, .error ⟨404, "Assignment not found"⟩)
  | existing :: _ =>
    if actor.role = Role.staff ∧ existing.staff_id ≠ actor.id then
      (db, .error ⟨403, "Not authorized to update this assignment"⟩)
    else if actor.role = Role.supervisor ∧
        supervisorDeptBlocked db actor existing.staff_id then
      (db, .error ⟨403, "Not authorized to update assignments outside your department"⟩)
    else
      let updatedRows := (db.assignments.filter
          (fun x => decide (x.id = assignment_id))).map (applyAssignmentUpdate u)
      if updatedRows = [] then
        (db, .error ⟨500, "Failed to update assignment"⟩)
      else
        let patched := db.assignments.map (fun x =>
          if x.id = assignment_id then applyAssignmentUpdate u x else x)
        let db1 : DB := { db with assignments := patched }
        let db2 : DB :=
          if u.status = AsgStatus.completed then
            if (db1.assignments.filter fun x =>
                decide (x.issue_id = existing.issue_id)).all
                  (fun x => decide (x.status = AsgStatus.completed)) then
              { db1 with issues := setIssueStatus db1.issues existing.issue_id IssueStatus.resolved }
            else db1
          else if u.status = AsgStatus.in_progress then
            { db1 with issues := setIssueStatus db1.issues existing.issue_id IssueStatus.in_progress }
          else db1
        match db2.assignments.filter (fun x => decide (x.id = assignment_id)) with
        | [] => (db2, .error ⟨500, "Failed to retrieve updated assignment"⟩)
        | updated :: _ => (db2, .ok updated)

/-- `DELETE /assignments/{assignment_id}` (`routes/assignments.py`,
`delete_assignment`).  `require_roles(["admin", "supervisor"])` guards
entry; supervisors pass the department gate.  After the delete, if no
assignment remains for the issue, the issue's status is reset to
`pending`. -/
def delete_assignment (db : DB) (actor : Profile) (assignment_id : Nat) :
    Handler Unit :=
  if ¬ (actor.role = Role.admin ∨ actor.role = Role.supervisor) then
    (db, .error ⟨403, "Insufficient permissions"⟩)
  else
    match db.assignments.filter (fun x => decide (x.id = assignment_id)) with
    | [] => (db, .error ⟨404, "Assignment not found"⟩)
    | assignment :: _ =>
      if actor.role = Role.supervisor ∧
          supervisorDeptBlocked db actor assignment.staff_id then
        (db, .error ⟨403, "Not authorized to delete assignments outside your department"⟩)
      else
        let kept := db.assignments.filter (fun x => ¬ decide (x.id = assignment_id))
        let db1 : DB := { db with assignments := kept }
        let remaining := db1.assignments.filter
          (fun x => decide (x.issue_id = assignment.issue_id))
        let db2 : DB :=
          if remaining = [] then
            { db1 with issues := setIssueStatus db1.issues assignment.issue_id IssueStatus.pending }
          else db1
        (db2, .ok ())

/-- Request body `IssueUpdateCreate` (`schemas.py`): `staff_id` is
overwritten by the handler. -/
structure IssueUpdateCreate where
  issue_id : Nat
  update_text : String
deriving DecidableEq, Repr

/-- `POST /updates/` (`routes/updates.py`, `create_issue_update`).
Staff must be assigned to the issue (any assignment status); a supervisor
is blocked only when the issue has assignments and none of the assigned
staff's profiles is in the supervisor's department.

The source has a fault here: the handler stores the request payload in a
local variable named `update_data`, which shadows the imported
`update_data` store helper for the whole function body.  The later call
intended to refresh `issues.updated_at` therefore invokes the dict and
raises `TypeError: 'dict' object is not callable`, which the generic
`except Exception` handler converts into a 500 response — after the
update row was already inserted.  The model reproduces this: the row is
inserted, the issue is left untouched, and the handler reports failure. -/
def create_issue_update (db : DB) (actor : Profile) (u : IssueUpdateCreate)
    (newId : Nat) : Handler IssueUpdateRow :=
  if ¬ (actor.role = Role.staff ∨ actor.role = Role.admin ∨
        actor.role = Role.supervisor) then
    (db, .error ⟨403, "Not authorized to create updates"⟩)
  else
    match db.issues.filter (fun i => decide (i.id = u.issue_id)) with
    | [] => (db, .error ⟨404, "Issue not found"⟩)
    | _issue :: _ =>
      if actor.role = Role.staff ∧
          (db.assignments.filter fun a =>
            decide (a.issue_id = u.issue_id) && decide (a.staff_id = actor.id)) = [] then
        (db, .error ⟨403, "You are not assigned to this issue"⟩)
      else
        let issueAsgs := db.assignments.filter
          (fun a => decide (a.issue_id = u.issue_id))
        let assignedStaff := db.profiles.filter
          (fun p => (issueAsgs.map (fun a => a.staff_id)).contains p.id)
        if actor.role = Role.supervisor ∧ issueAsgs ≠ [] ∧
            ¬ assignedStaff.any (fun s => decide (s.department = actor.department)) then
          (db, .error ⟨403, "Issue is not assigned to staff in your department"⟩)
        else
          let row : IssueUpdateRow :=
            { id := newId, issue_id := u.issue_id, staff_id := actor.id
              update_text := u.update_text }
          let db1 : DB := { db with updates := db.updates ++ [row] }
          -- `update_data("issues", {"id": ...}, {"updated_at": ...})` is
          -- never reached as a store call: the name is bound to the
          -- payload dict, the call raises, and the handler returns 500.
          (db1, .error ⟨500, "Failed to create update"⟩)

/-- Request body `IssueUpdate` (`schemas.py`): the partial-update payload
of `PUT /issues/{issue_id}` (all fields optional). -/
structure IssueUpdatePayload where
  title : Option String
  description : Option String
  category : Option String
  status : Option IssueStatus
  latitude : Option ℚ
  longitude : Option ℚ
deriving DecidableEq, Repr

/-- `PUT /issues/{issue_id}` (`routes/issues.py`, `update_issue`).
Declared as the issue-update endpoint (docstring "Update issue",
`response_model=IssueResponse`), but its body is a copy of the delete
handler: after the auth and existence checks it deletes the issue's
votes, updates and assignments, deletes the issue row itself, never reads
`payload`, and returns "Issue deleted successfully".  The model is
faithful to this body. -/
def update_issue_route (db : DB) (current_user : Option Profile)
    (issue_id : Nat) (_payload : IssueUpdatePayload) : Handler String :=
  match current_user with
  | none => (db, .error ⟨401, "Authentication required"⟩)
  | some _ =>
    match db.issues.filter (fun i => decide (i.id = issue_id)) with
    | [] => (db, .error ⟨404, "Issue not found"⟩)
    | _ :: _ =>
      let votes1 := db.votes.filter (fun v => ¬ decide (v.1 = issue_id))
      let updates1 := db.updates.filter (fun x => ¬ decide (x.issue_id = issue_id))
      let assignments1 := db.assignments.filter (fun a => ¬ decide (a.issue_id = issue_id))
      let issues1 := db.issues.filter (fun i => ¬ decide (i.id = issue_id))
      ({ db with votes := votes1, updates := updates1,
                 assignments := assignments1, issues := issues1 },
       .ok "Issue deleted successfully")

/-- The allowed issue categories (`issues_service.py`). -/
def valid_categories : List String :=
  ["roads", "waste", "water", "streetlight", "other"]

/-- `"category" in new_data and not in the allowed list` (`issues_service.py`). -/
def badCategory (data : IssueUpdatePayload) : Bool :=
  match data.category with
  | some c => ¬ valid_categories.contains c
  | none => false

/-- `"latitude" in new_data`, non-null, outside `[-90, 90]`. -/
def badLatitude (data : IssueUpdatePayload) : Bool :=
  match data.latitude with
  | some v => ¬ (-90 ≤ v ∧ v ≤ 90)
  | none => false

/-- `"longitude" in new_data`, non-null, outside `[-180, 180]`. -/
def badLongitude (data : IssueUpdatePayload) : Bool :=
  match data.longitude with
  | some v => ¬ (-180 ≤ v ∧ v ≤ 180)
  | none => false

/-- `IssuesService.update_issue` (`services/issues_service.py`): the
service-layer issue update.  For a citizen author it checks ownership and
silently drops any supplied `status` (`new_data.pop("status", None)`),
validates category and coordinates, stamps `updated_at`, and patches the
row.  (No route calls it; the route body above replaced it with a copy of
the delete handler.)  Failures are `ValueError`/`PermissionError`
surfaced by the model as 400/403 errors. -/
def IssuesService_update_issue (db : DB) (issue_id : Nat)
    (new_data : IssueUpdatePayload) (user_id : String) (user_role : Role)
    (now : Nat) : Handler Issue :=
  match db.issues.filter (fun i => decide (i.id = issue_id)) with
  | [] => (db, .error ⟨400, "Issue not found"⟩)
  | existing :: _ =>
    if user_role = Role.citizen ∧ existing.citizen_id ≠ user_id then
      (db, .error ⟨403, "Not authorized to update this issue"⟩)
    else
      -- citizens cannot change status: the field is popped, not rejected
      let data : IssueUpdatePayload :=
        if user_role = Role.citizen then { new_data with status := none } else new_data
      if badCategory data then
        (db, .error ⟨400, "Invalid category"⟩)
      else if badLatitude data then
        (db, .error ⟨400, "Invalid latitude"⟩)
      else if badLongitude data then
        (db, .error ⟨400, "Invalid longitude"⟩)
      else
        let patch : Issue → Issue := fun i =>
          { i with title := data.title.getD i.title
                   description := data.description.getD i.description
                   category := data.category.getD i.category
                   status := data.status.getD i.status
                   latitude := if data.latitude.isSome then data.latitude else i.latitude
                   longitude := if data.longitude.isSome then data.longitude else i.longitude
                   updated_at := now }
        let issues1 := db.issues.map
          (fun i => if i.id = issue_id then patch i else i)
        (({ db with issues := issues1 } : DB), .ok (patch existing))

/-- `Role` values as the raw strings the role-management endpoint takes. -/
def Role.ofString : String → Option Role
  | "citizen" => some Role.citizen
  | "staff" => some Role.staff
  | "supervisor" => some Role.supervisor
  | "admin" => some Role.admin
  | _ => none

/-- `POST /users/{user_id}/change-role` (`routes/users.py`,
`change_user_role`).  Admin-only; the requested role string is validated;
changing the last admin away from `admin` is rejected before any write
(`admin_count <= 1` over all profiles with role `admin`). -/
def change_user_role (db : DB) (actor : Profile) (user_id : String)
    (new_role : String) : Handler Profile :=
  if actor.role ≠ Role.admin then
    (db, .error ⟨403, "Insufficient permissions"⟩)
  else
    match Role.ofString new_role with
    | none => (db, .error ⟨400, "Invalid role"⟩)
    | some r =>
      match db.profiles.filter (fun p => decide (p.id = user_id)) with
      | [] => (db, .error ⟨404, "User not found"⟩)
      | existing :: _ =>
        if existing.role = Role.admin ∧ new_role ≠ "admin" ∧
            (db.profiles.filter (fun p => decide (p.role = Role.admin))).length ≤ 1 then
          (db, .error ⟨400, "Cannot change role of the last admin user"⟩)
        else
          let profiles1 := db.profiles.map
            (fun p => if p.id = user_id then { p with role := r } else p)
          let updatedRows := (db.profiles.filter
            (fun p => decide (p.id = user_id))).map (fun p => { p with role := r })
          match updatedRows with
          | [] => (db, .error ⟨500, "Failed to update user role"⟩)
          | upd :: _ => (({ db with profiles := profiles1 } : DB), .ok upd)

/-- Python's `round` to 0 decimals over exact rationals: nearest integer,
ties to even (banker's rounding). -/
def roundHalfEven (x : ℚ) : ℤ :=
  let f := ⌊x⌋
  if x - f < 1 / 2 then f
  else if 1 / 2 < x - f then f + 1
  else if f % 2 = 0 then f else f + 1

/-- Python's `round(x, 1)` over exact rationals. -/
def pyRound1 (x : ℚ) : ℚ := (roundHalfEven (x * 10) : ℚ) / 10

/-- One element of `workload_data` in `get_workload_distribution`
(`routes/assignments.py`).  Real-number arithmetic of the source is
modelled exactly over `ℚ`. -/
structure WorkloadEntry where
  staff_id : String
  name : String
  department : Option String
  active_assignments : Nat
  total_assignments : Nat
  completed_assignments : Nat
  completion_rate : ℚ
deriving DecidableEq, Repr

/-- The per-staff body of the `for staff in staff_members` loop of
`get_workload_distribution`: three store queries (active / all /
completed assignments of the staff member) and the derived counts;
`completion_rate = round(completed / total * 100 if total else 0, 1)`. -/
def staffWorkloadEntry (db : DB) (staff : Profile) : WorkloadEntry :=
  let active := db.assignments.filter fun a =>
    decide (a.staff_id = staff.id) &&
    (decide (a.status = AsgStatus.assigned) || decide (a.status = AsgStatus.in_progress))
  let total := db.assignments.filter fun a => decide (a.staff_id = staff.id)
  let completed := db.assignments.filter fun a =>
    decide (a.staff_id = staff.id) && decide (a.status = AsgStatus.completed)
  { staff_id := staff.id
    name := staff.full_name
    department := staff.department
    active_assignments := active.length
    total_assignments := total.length
    completed_assignments := completed.length
    completion_rate := pyRound1
      (if total ≠ [] then (completed.length : ℚ) / (total.length : ℚ) * 100 else 0) }

/-- `GET /assignments/stats/workload` (`routes/assignments.py`,
`get_workload_distribution`), reduced to the `workload_distribution`
list of its response: admin sees all staff, a supervisor only staff of
their department; entries are sorted by `active_assignments`
descending. -/
def get_workload_distribution (db : DB) (actor : Profile) :
    Handler (List WorkloadEntry) :=
  if ¬ (actor.role = Role.admin ∨ actor.role = Role.supervisor) then
    (db, .error ⟨403, "Insufficient permissions"⟩)
  else
    let staff_members :=
      if actor.role = Role.supervisor then
        db.profiles.filter fun p =>
          decide (p.role = Role.staff) && decide (p.department = actor.department)
      else
        db.profiles.filter fun p => decide (p.role = Role.staff)
    let workload_data := staff_members.map (staffWorkloadEntry db)
    (db, .ok (workload_data.insertionSort
      (fun a b => b.active_assignments ≤ a.active_assignments)))

/-! ### Sample rows for evaluating the handlers at concrete inputs -/

def citizenA : Profile :=
  { id := "cit-a", full_name := "Citizen A", role := Role.citizen, department := none }

def adminOne : Profile :=
  { id := "adm-1", full_name := "Admin One", role := Role.admin, department := none }

def supervisorD : Profile :=
  { id := "sup-d", full_name := "Supervisor D", role := Role.supervisor
    department := some "roads-dept" }

def staffS : Profile :=
  { id := "stf-s", full_name := "Staff S", role := Role.staff
    department := some "roads-dept" }

def staffE : Profile :=
  { id := "stf-e", full_name := "Staff E", role := Role.staff
    department := some "water-dept" }

def issueOne : Issue :=
  { id := 1, title := "Pothole", description := "Large pothole on Main St"
    category := "roads", status := IssueStatus.pending, citizen_id := "cit-a"
    latitude := none, longitude := none, updated_at := 5 }

/-- Issue 1 after its first assignment moved it to `in_progress`. -/
def issueOneInProgress : Issue :=
  { issueOne with status := IssueStatus.in_progress }

/-- A resolved issue, for concrete evaluation of the non-pending frame. -/
def issueTwoResolved : Issue :=
  { id := 2, title := "Streetlight out", description := "Lamp 44 dark"
    category := "streetlight", status := IssueStatus.resolved, citizen_id := "cit-a"
    latitude := none, longitude := none, updated_at := 9 }

/-- An active assignment of issue 1 to staff S, for concrete evaluation. -/
def asgActive : Assignment :=
  { id := 3, issue_id := 1, staff_id := "stf-s", assigned_by := "adm-1"
    status := AsgStatus.assigned, notes := none }

/-! ### Claims -/

/-- C1: the claim fails on the code.  The issue-update endpoint
(`PUT /issues/{issue_id}`) called by the owning citizen with new field
values and a supplied status does not edit the issue at all: its handler
body is a copy of the delete handler, so the issue row (here issue 1,
owned by the calling citizen) no longer exists afterwards and the
response reports a deletion.  The service-layer `IssuesService.update_issue`
(embedded above) implements the claimed behaviour — ownership check,
silent drop of a citizen-supplied status — but no route calls it. -/
theorem update_issue_route_deletes_row :
    (update_issue_route (DB.mk [citizenA] [issueOne] [] [] []) (some citizenA) 1
        (IssueUpdatePayload.mk (some "New title") none none
          (some IssueStatus.resolved) none none)).1.issues = [] ∧
    (update_issue_route (DB.mk [citizenA] [issueOne] [] [] []) (some citizenA) 1
        (IssueUpdatePayload.mk (some "New title") none none
          (some IssueStatus.resolved) none none)).2 =
      Except.ok "Issue deleted successfully" := by
  constructor <;> rfl

/-- C2: the claim fails on the code.  A successful-looking create-update
call by an admin on existing issue 1 inserts the update row, but the
handler then reports a 500 failure and never refreshes the issue's
`updated_at`: the local payload dict shadows the imported `update_data`
helper, so the refresh call raises and the generic handler converts it
into an error after the insert. -/
theorem create_issue_update_insert_then_error :
    (create_issue_update (DB.mk [citizenA, adminOne] [issueOne] [] [] [])
        adminOne (IssueUpdateCreate.mk 1 "Crew dispatched") 7).2 =
      Except.error (HTTPError.mk 500 "Failed to create update") ∧
    (create_issue_update (DB.mk [citizenA, adminOne] [issueOne] [] [] [])
        adminOne (IssueUpdateCreate.mk 1 "Crew dispatched") 7).1.updates =
      [IssueUpdateRow.mk 7 1 "adm-1" "Crew dispatched"] ∧
    (create_issue_update (DB.mk [citizenA, adminOne] [issueOne] [] [] [])
        adminOne (IssueUpdateCreate.mk 1 "Crew dispatched") 7).1.issues =
      [issueOne] := by
  refine ⟨?_, ?_, ?_⟩ <;> rfl

/-- C4: a create-assignment call that passes the role, existence,
staff-role and department guards is rejected — HTTP 400, the code's
form of the spec's `Conflict` — with the database untouched, whenever an
active (`assigned` or `in_progress`) assignment for the same
`(issue_id, staff_id)` pair already exists. -/
theorem create_assignment_duplicate_active_conflict
    (db : DB) (actor : Profile) (a : AssignmentCreate) (newId : Nat)
    (i : Issue) (irest : List Issue)
    (hi : db.issues.filter (fun x => decide (x.id = a.issue_id)) = i :: irest)
    (s : Profile) (srest : List Profile)
    (hs : db.profiles.filter (fun p => decide (p.id = a.staff_id)) = s :: srest)
    (hrole : actor.role = Role.admin ∨ actor.role = Role.supervisor)
    (hstaff : s.role = Role.staff)
    (hdept : actor.role = Role.supervisor → actor.department = s.department)
    (hactive : activeDupQuery db a ≠ []) :
    create_assignment db actor a newId =
      (db, .error ⟨400, "Issue is already assigned to this staff member"⟩) := by
  unfold create_assignment
  rw [if_neg (not_not_intro hrole)]
  split
  · rename_i heq
    rw [hi] at heq
    cases heq
  · rename_i issue tail heq
    rw [hi] at heq
    cases heq
    split
    · rename_i heq2
      rw [hs] at heq2
      cases heq2
    · rename_i sm tail2 heq2
      rw [hs] at heq2
      cases heq2
      rw [if_neg (not_not_intro hstaff)]
      rw [if_neg (by rintro ⟨hsup, hne⟩; exact hne (hdept hsup))]
      rw [if_pos hactive]


/-- Shared helper: full characterization of a create-assignment call that
passes every guard — the row is appended (with the actor recorded as
`assigned_by`) and the issue is moved to `in_progress` exactly when it
was `pending`. -/
theorem create_assignment_success_shape
    (db : DB) (actor : Profile) (a : AssignmentCreate) (newId : Nat)
    (i : Issue) (irest : List Issue)
    (hi : db.issues.filter (fun x => decide (x.id = a.issue_id)) = i :: irest)
    (s : Profile) (srest : List Profile)
    (hs : db.profiles.filter (fun p => decide (p.id = a.staff_id)) = s :: srest)
    (hrole : actor.role = Role.admin ∨ actor.role = Role.supervisor)
    (hstaff : s.role = Role.staff)
    (hdept : actor.role = Role.supervisor → actor.department = s.department)
    (hdup : activeDupQuery db a = [])
    (hfresh : ∀ x ∈ db.assignments, ¬ x.id = newId) :
    create_assignment db actor a newId =
      ({ db with
          assignments := db.assignments ++
            [⟨newId, a.issue_id, a.staff_id, actor.id, AsgStatus.assigned, a.notes⟩],
          issues := if i.status = IssueStatus.pending then
              setIssueStatus db.issues a.issue_id IssueStatus.in_progress
            else db.issues },
        .ok ⟨newId, a.issue_id, a.staff_id, actor.id, AsgStatus.assigned, a.notes⟩) := by
  unfold create_assignment
  rw [if_neg (not_not_intro hrole)]
  split
  · rename_i heq; rw [hi] at heq; cases heq
  · rename_i issue tail heq; rw [hi] at heq; cases heq
    split
    · rename_i heq2; rw [hs] at heq2; cases heq2
    · rename_i sm tail2 heq2; rw [hs] at heq2; cases heq2
      rw [if_neg (not_not_intro hstaff)]
      rw [if_neg (by rintro ⟨hsup, hne⟩; exact hne (hdept hsup))]
      rw [if_neg (fun hne => hne hdup)]
      have h0 : db.assignments.filter (fun x => decide (x.id = newId)) = [] :=
        List.filter_eq_nil_iff.mpr (by intro x hx; simpa using hfresh x hx)
      by_cases hp : i.status = IssueStatus.pending
      · simp only [hp, if_true, List.filter_append, h0, List.filter_cons, List.nil_append,
          decide_True, decide_eq_true_eq, if_pos rfl]
      · simp only [List.filter_append, h0, List.filter_cons, List.nil_append, List.filter_nil,
          decide_True, decide_eq_true_eq, if_pos rfl, if_neg hp, if_true]

/-- Witness for C4: with issue 1 already actively assigned to staff S,
the admin's second create-assignment call for the same pair returns the
duplicate error and leaves the database as it was. -/
theorem create_assignment_duplicate_active_conflict_witness :
    create_assignment (DB.mk [adminOne, staffS] [issueOne] [asgActive] [] [])
        adminOne (AssignmentCreate.mk 1 "stf-s" none) 9 =
      (DB.mk [adminOne, staffS] [issueOne] [asgActive] [] [],
       .error ⟨400, "Issue is already assigned to this staff member"⟩) :=
  create_assignment_duplicate_active_conflict _ _ _ _ issueOne [] rfl staffS [] rfl
    (Or.inl rfl) rfl (by decide) (by decide)

/-- C6: department scoping of create-assignment.  Given an existing
target issue and an existing target profile with role `staff`: a
supervisor whose department differs from the staff member's is rejected
with 403 and the database — the issue included — is untouched; an admin
passes with no department comparison at all: whatever the departments
are, if no active duplicate exists and the store id is fresh, the
assignment row is inserted and returned. -/
theorem create_assignment_department_rule
    (db : DB) (actor : Profile) (a : AssignmentCreate) (newId : Nat)
    (i : Issue) (irest : List Issue)
    (hi : db.issues.filter (fun x => decide (x.id = a.issue_id)) = i :: irest)
    (s : Profile) (srest : List Profile)
    (hs : db.profiles.filter (fun p => decide (p.id = a.staff_id)) = s :: srest)
    (hstaff : s.role = Role.staff) :
    (actor.role = Role.supervisor → actor.department ≠ s.department →
      create_assignment db actor a newId =
        (db, .error ⟨403, "Cannot assign to staff outside your department"⟩)) ∧
    (actor.role = Role.admin → activeDupQuery db a = [] →
      (∀ x ∈ db.assignments, ¬ x.id = newId) →
      (create_assignment db actor a newId).1.assignments =
        db.assignments ++ [⟨newId, a.issue_id, a.staff_id, actor.id, AsgStatus.assigned, a.notes⟩] ∧
      (create_assignment db actor a newId).2 =
        .ok ⟨newId, a.issue_id, a.staff_id, actor.id, AsgStatus.assigned, a.notes⟩) := by
  constructor
  · intro hsup hne
    unfold create_assignment
    rw [if_neg (not_not_intro (Or.inr hsup))]
    split
    · rename_i heq; rw [hi] at heq; cases heq
    · rename_i issue tail heq; rw [hi] at heq; cases heq
      split
      · rename_i heq2; rw [hs] at heq2; cases heq2
      · rename_i sm tail2 heq2; rw [hs] at heq2; cases heq2
        rw [if_neg (not_not_intro hstaff)]
        rw [if_pos ⟨hsup, hne⟩]
  · intro hadmin hdup hfresh
    rw [create_assignment_success_shape db actor a newId i irest hi s srest hs
      (Or.inl hadmin) hstaff (by intro h; rw [hadmin] at h; cases h) hdup hfresh]
    exact ⟨rfl, rfl⟩

/-- Witness for C6: supervisor D (roads dept) is denied assigning staff E
(water dept) on issue 1, with the database unchanged. -/
theorem create_assignment_department_rule_witness :
    create_assignment (DB.mk [adminOne, supervisorD, staffS, staffE] [issueOne] [] [] [])
        supervisorD (AssignmentCreate.mk 1 "stf-e" none) 9 =
      (DB.mk [adminOne, supervisorD, staffS, staffE] [issueOne] [] [] [],
       .error ⟨403, "Cannot assign to staff outside your department"⟩) :=
  (create_assignment_department_rule
    (DB.mk [adminOne, supervisorD, staffS, staffE] [issueOne] [] [] [])
    supervisorD (AssignmentCreate.mk 1 "stf-e" none) 9 issueOne [] (by decide)
    staffE [] (by decide) (by decide)).1 (by decide) (by decide)

/-- C9: a successful create-assignment call on an issue whose status is
not `pending` inserts the assignment row but leaves every issue row (the
whole `issues` table) unchanged — in particular a `resolved` issue is not
moved back to `in_progress`. -/
theorem create_assignment_nonpending_frame
    (db : DB) (actor : Profile) (a : AssignmentCreate) (newId : Nat)
    (i : Issue) (irest : List Issue)
    (hi : db.issues.filter (fun x => decide (x.id = a.issue_id)) = i :: irest)
    (s : Profile) (srest : List Profile)
    (hs : db.profiles.filter (fun p => decide (p.id = a.staff_id)) = s :: srest)
    (hrole : actor.role = Role.admin ∨ actor.role = Role.supervisor)
    (hstaff : s.role = Role.staff)
    (hdept : actor.role = Role.supervisor → actor.department = s.department)
    (hdup : activeDupQuery db a = [])
    (hfresh : ∀ x ∈ db.assignments, ¬ x.id = newId)
    (hnp : i.status ≠ IssueStatus.pending) :
    (create_assignment db actor a newId).1.issues = db.issues ∧
    (create_assignment db actor a newId).1.assignments =
      db.assignments ++ [⟨newId, a.issue_id, a.staff_id, actor.id, AsgStatus.assigned, a.notes⟩] ∧
    (create_assignment db actor a newId).2 =
      .ok ⟨newId, a.issue_id, a.staff_id, actor.id, AsgStatus.assigned, a.notes⟩ := by
  rw [create_assignment_success_shape db actor a newId i irest hi s srest hs
    hrole hstaff hdept hdup hfresh]
  exact ⟨by simp only [if_neg hnp], rfl, rfl⟩

/-- Witness for C9: the admin assigns staff S to the resolved issue 2;
the row is inserted and the issue stays `resolved`. -/
theorem create_assignment_nonpending_frame_witness :
    (create_assignment (DB.mk [adminOne, staffS] [issueTwoResolved] [] [] [])
        adminOne (AssignmentCreate.mk 2 "stf-s" none) 9).1.issues = [issueTwoResolved] ∧
    (create_assignment (DB.mk [adminOne, staffS] [issueTwoResolved] [] [] [])
        adminOne (AssignmentCreate.mk 2 "stf-s" none) 9).2 =
      .ok ⟨9, 2, "stf-s", "adm-1", AsgStatus.assigned, none⟩ := by
  have h := create_assignment_nonpending_frame
    (DB.mk [adminOne, staffS] [issueTwoResolved] [] [] []) adminOne
    (AssignmentCreate.mk 2 "stf-s" none) 9 issueTwoResolved [] rfl staffS [] rfl
    (Or.inl rfl) rfl (by intro h2; exact absurd h2 (by decide)) (by decide) (by decide)
    (by decide)
  exact ⟨h.1, h.2.2⟩

/-- Shared helper: patching `issue_assignments` rows by id commutes with
re-fetching by the same id, because the patch preserves every row's id. -/
theorem filter_id_map_patch (l : List Assignment) (aid : Nat) (u : AssignmentUpdate) :
    (l.map (fun x => if x.id = aid then applyAssignmentUpdate u x else x)).filter
        (fun x => decide (x.id = aid)) =
      (l.filter (fun x => decide (x.id = aid))).map
        (fun x => if x.id = aid then applyAssignmentUpdate u x else x) := by
  rw [List.filter_map]
  have hcomp : ((fun x : Assignment => decide (x.id = aid)) ∘
      fun x => if x.id = aid then applyAssignmentUpdate u x else x) =
      (fun x : Assignment => decide (x.id = aid)) := by
    funext x
    by_cases h : x.id = aid
    · simp [Function.comp, h, applyAssignmentUpdate]
    · simp [Function.comp, h]
  rw [hcomp]

/-- C3: an assignment update to `completed` (by an actor who passes the
permission gates) re-evaluates every assignment of the issue after the
patch: if all of them are then `completed`, the issue's status becomes
`resolved`; if at least one is not, the `issues` table is left exactly as
it was. -/
theorem update_assignment_completed_cascade
    (db : DB) (actor : Profile) (aid : Nat) (u : AssignmentUpdate)
    (ex : Assignment) (rest : List Assignment)
    (hex : db.assignments.filter (fun x => decide (x.id = aid)) = ex :: rest)
    (hcomp : u.status = AsgStatus.completed)
    (hstaff : ¬ (actor.role = Role.staff ∧ ex.staff_id ≠ actor.id))
    (hsup : ¬ (actor.role = Role.supervisor ∧
      supervisorDeptBlocked db actor ex.staff_id = true)) :
    (((db.assignments.map (fun x => if x.id = aid then applyAssignmentUpdate u x else x)).filter
        (fun x => decide (x.issue_id = ex.issue_id))).all
        (fun x => decide (x.status = AsgStatus.completed)) = true →
      (update_assignment db actor aid u).1.issues =
        setIssueStatus db.issues ex.issue_id IssueStatus.resolved) ∧
    (((db.assignments.map (fun x => if x.id = aid then applyAssignmentUpdate u x else x)).filter
        (fun x => decide (x.issue_id = ex.issue_id))).all
        (fun x => decide (x.status = AsgStatus.completed)) = false →
      (update_assignment db actor aid u).1.issues = db.issues) := by
  unfold update_assignment
  split
  · rename_i heq; rw [hex] at heq; cases heq
  · rename_i ex2 tail heq; rw [hex] at heq; cases heq
    rw [if_neg hstaff, if_neg hsup]
    rw [if_neg (by rw [hex]; simp)]
    constructor
    · intro hall
      simp only []
      rw [if_pos hcomp, if_pos hall]
      split <;> rfl
    · intro hall
      simp only []
      rw [if_pos hcomp, if_neg (by rw [hall]; exact Bool.false_ne_true)]
      split <;> rfl

/-- Witness for C3: staff S marks the only assignment of the in-progress
issue 1 `completed`; the issue becomes `resolved`. -/
theorem update_assignment_completed_cascade_witness :
    (update_assignment (DB.mk [staffS] [issueOneInProgress] [asgActive] [] []) staffS 3
        (AssignmentUpdate.mk AsgStatus.completed none)).1.issues =
      setIssueStatus [issueOneInProgress] 1 IssueStatus.resolved :=
  (update_assignment_completed_cascade (DB.mk [staffS] [issueOneInProgress] [asgActive] [] [])
      staffS 3 (AssignmentUpdate.mk AsgStatus.completed none) asgActive [] (by decide) rfl
      (by decide) (by decide)).1 (by decide)

/-- Shared helper: the supervisor department gate fires exactly when the
assigned staff member's profile is found and its department differs from
the supervisor's. -/
theorem supervisorDeptBlocked_iff (db : DB) (actor : Profile) (sid : String) :
    supervisorDeptBlocked db actor sid = true ↔
      ∃ s srest, db.profiles.filter (fun p => decide (p.id = sid)) = s :: srest ∧
        s.department ≠ actor.department := by
  unfold supervisorDeptBlocked
  split
  · rename_i heq
    constructor
    · intro h; cases h
    · rintro ⟨s, srest, hcons, _⟩; rw [heq] at hcons; cases hcons
  · rename_i s srest heq
    constructor
    · intro h; exact ⟨s, srest, heq, of_decide_eq_true h⟩
    · rintro ⟨s2, sr2, hcons, hne⟩
      rw [heq] at hcons
      injection hcons with h1 h2
      subst h1
      exact decide_eq_true hne

/-- Shared helper: a supervisor blocked by the department gate gets the
update-assignment 403 with the database untouched. -/
theorem update_assignment_supervisor_blocked
    (db : DB) (actor : Profile) (aid : Nat) (u : AssignmentUpdate)
    (ex : Assignment) (rest : List Assignment)
    (hex : db.assignments.filter (fun x => decide (x.id = aid)) = ex :: rest)
    (hrole : actor.role = Role.supervisor)
    (hb : supervisorDeptBlocked db actor ex.staff_id = true) :
    update_assignment db actor aid u =
      (db, .error ⟨403, "Not authorized to update assignments outside your department"⟩) := by
  unfold update_assignment
  split
  · rename_i heq; rw [hex] at heq; cases heq
  · rename_i ex2 tail heq; rw [hex] at heq; cases heq
    rw [if_neg (by rintro ⟨h, _⟩; rw [hrole] at h; cases h)]
    rw [if_pos ⟨hrole, hb⟩]

/-- Shared helper: a supervisor not blocked by the department gate drives
update-assignment to a success response. -/
theorem update_assignment_supervisor_pass
    (db : DB) (actor : Profile) (aid : Nat) (u : AssignmentUpdate)
    (ex : Assignment) (rest : List Assignment)
    (hex : db.assignments.filter (fun x => decide (x.id = aid)) = ex :: rest)
    (hrole : actor.role = Role.supervisor)
    (hnb : supervisorDeptBlocked db actor ex.staff_id = false) :
    ∃ r, (update_assignment db actor aid u).2 = .ok r := by
  have h2 := filter_id_map_patch db.assignments aid u
  rw [hex] at h2
  unfold update_assignment
  split
  · rename_i heq; rw [hex] at heq; cases heq
  · rename_i ex2 tail heq; rw [hex] at heq; cases heq
    rw [if_neg (by rintro ⟨h, _⟩; rw [hrole] at h; cases h)]
    rw [if_neg (by rintro ⟨_, hb⟩; rw [hnb] at hb; cases hb)]
    rw [if_neg (by rw [hex]; simp)]
    simp only []
    by_cases hc : u.status = AsgStatus.completed
    · rw [if_pos hc]
      by_cases hall : ((db.assignments.map
            (fun x => if x.id = aid then applyAssignmentUpdate u x else x)).filter
            (fun x => decide (x.issue_id = ex.issue_id))).all
            (fun x => decide (x.status = AsgStatus.completed)) = true
      · rw [if_pos hall]
        dsimp only
        split
        · rename_i heq2; rw [h2] at heq2; cases heq2
        · rename_i upd tail2 heq2; exact ⟨upd, rfl⟩
      · rw [if_neg hall]
        dsimp only
        split
        · rename_i heq2; rw [h2] at heq2; cases heq2
        · rename_i upd tail2 heq2; exact ⟨upd, rfl⟩
    · rw [if_neg hc]
      by_cases hip : u.status = AsgStatus.in_progress
      · rw [if_pos hip]
        dsimp only
        split
        · rename_i heq2; rw [h2] at heq2; cases heq2
        · rename_i upd tail2 heq2; exact ⟨upd, rfl⟩
      · rw [if_neg hip]
        dsimp only
        split
        · rename_i heq2; rw [h2] at heq2; cases heq2
        · rename_i upd tail2 heq2; exact ⟨upd, rfl⟩

/-- Shared helper: a supervisor blocked by the department gate gets the
delete-assignment 403 with the database untouched. -/
theorem delete_assignment_supervisor_blocked
    (db : DB) (actor : Profile) (aid : Nat)
    (ex : Assignment) (rest : List Assignment)
    (hex : db.assignments.filter (fun x => decide (x.id = aid)) = ex :: rest)
    (hrole : actor.role = Role.supervisor)
    (hb : supervisorDeptBlocked db actor ex.staff_id = true) :
    delete_assignment db actor aid =
      (db, .error ⟨403, "Not authorized to delete assignments outside your department"⟩) := by
  unfold delete_assignment
  rw [if_neg (not_not_intro (Or.inr hrole))]
  split
  · rename_i heq; rw [hex] at heq; cases heq
  · rename_i a2 tail heq; rw [hex] at heq; cases heq
    rw [if_pos ⟨hrole, hb⟩]

/-- Shared helper: a supervisor not blocked by the department gate drives
delete-assignment to success. -/
theorem delete_assignment_supervisor_pass
    (db : DB) (actor : Profile) (aid : Nat)
    (ex : Assignment) (rest : List Assignment)
    (hex : db.assignments.filter (fun x => decide (x.id = aid)) = ex :: rest)
    (hrole : actor.role = Role.supervisor)
    (hnb : supervisorDeptBlocked db actor ex.staff_id = false) :
    (delete_assignment db actor aid).2 = .ok () := by
  unfold delete_assignment
  rw [if_neg (not_not_intro (Or.inr hrole))]
  split
  · rename_i heq; rw [hex] at heq; cases heq
  · rename_i a2 tail heq; rw [hex] at heq; cases heq
    rw [if_neg (by rintro ⟨_, hb⟩; rw [hnb] at hb; cases hb)]

/-- C10: for a supervisor acting on an existing assignment, the
update-assignment and delete-assignment department 403s are raised if and
only if the assigned staff member's profile exists and its department
differs from the supervisor's; when the profile lookup returns nothing
the gate is skipped and both operations proceed to success. -/
theorem supervisor_gate_profile_existence
    (db : DB) (actor : Profile) (aid : Nat) (u : AssignmentUpdate)
    (ex : Assignment) (rest : List Assignment)
    (hex : db.assignments.filter (fun x => decide (x.id = aid)) = ex :: rest)
    (hrole : actor.role = Role.supervisor) :
    ((update_assignment db actor aid u).2 =
        .error ⟨403, "Not authorized to update assignments outside your department"⟩ ↔
      ∃ s srest, db.profiles.filter (fun p => decide (p.id = ex.staff_id)) = s :: srest ∧
        s.department ≠ actor.department) ∧
    ((delete_assignment db actor aid).2 =
        .error ⟨403, "Not authorized to delete assignments outside your department"⟩ ↔
      ∃ s srest, db.profiles.filter (fun p => decide (p.id = ex.staff_id)) = s :: srest ∧
        s.department ≠ actor.department) ∧
    (db.profiles.filter (fun p => decide (p.id = ex.staff_id)) = [] →
      (∃ r, (update_assignment db actor aid u).2 = .ok r) ∧
      (delete_assignment db actor aid).2 = .ok ()) := by
  by_cases hb : supervisorDeptBlocked db actor ex.staff_id = true
  · have hE := (supervisorDeptBlocked_iff db actor ex.staff_id).mp hb
    have hup := update_assignment_supervisor_blocked db actor aid u ex rest hex hrole hb
    have hdel := delete_assignment_supervisor_blocked db actor aid ex rest hex hrole hb
    refine ⟨?_, ?_, ?_⟩
    · rw [hup]
      exact iff_of_true rfl hE
    · rw [hdel]
      exact iff_of_true rfl hE
    · intro hnone
      rcases hE with ⟨s, sr, hcons, _⟩
      rw [hnone] at hcons
      cases hcons
  · have hnb : supervisorDeptBlocked db actor ex.staff_id = false := by
      cases hsb : supervisorDeptBlocked db actor ex.staff_id
      · rfl
      · exact absurd hsb hb
    have hnE : ¬ ∃ s srest,
        db.profiles.filter (fun p => decide (p.id = ex.staff_id)) = s :: srest ∧
        s.department ≠ actor.department := by
      intro hEx
      have := (supervisorDeptBlocked_iff db actor ex.staff_id).mpr hEx
      rw [hnb] at this
      cases this
    have hup := update_assignment_supervisor_pass db actor aid u ex rest hex hrole hnb
    have hdel := delete_assignment_supervisor_pass db actor aid ex rest hex hrole hnb
    refine ⟨?_, ?_, fun _ => ⟨hup, hdel⟩⟩
    · refine iff_of_false ?_ hnE
      rcases hup with ⟨r, hr⟩
      rw [hr]
      intro h
      cases h
    · refine iff_of_false ?_ hnE
      rw [hdel]
      intro h
      cases h

/-- Witness for C10: the staff profile of the assignment's `staff_id` is
absent from the store, so the supervisor's update and delete both
proceed. -/
theorem supervisor_gate_profile_existence_witness :
    (∃ r, (update_assignment (DB.mk [supervisorD] [issueOne] [asgActive] [] []) supervisorD 3
        (AssignmentUpdate.mk AsgStatus.assigned none)).2 = .ok r) ∧
    (delete_assignment (DB.mk [supervisorD] [issueOne] [asgActive] [] []) supervisorD 3).2 =
      .ok () :=
  (supervisor_gate_profile_existence (DB.mk [supervisorD] [issueOne] [asgActive] [] [])
      supervisorD 3 (AssignmentUpdate.mk AsgStatus.assigned none) asgActive []
      (by decide) rfl).2.2 (by decide)

/-- C5: an authorized delete-assignment call removes the row and then
looks at what is left for the issue: if no assignment remains the issue's
status is set to `pending` whatever it was; if at least one remains the
`issues` table is untouched. -/
theorem delete_assignment_empty_resets_pending
    (db : DB) (actor : Profile) (aid : Nat)
    (asg : Assignment) (rest : List Assignment)
    (hex : db.assignments.filter (fun x => decide (x.id = aid)) = asg :: rest)
    (hrole : actor.role = Role.admin ∨ actor.role = Role.supervisor)
    (hsup : ¬ (actor.role = Role.supervisor ∧
      supervisorDeptBlocked db actor asg.staff_id = true)) :
    (delete_assignment db actor aid).2 = .ok () ∧
    (delete_assignment db actor aid).1.assignments =
      db.assignments.filter (fun x => ¬ decide (x.id = aid)) ∧
    ((db.assignments.filter (fun x => ¬ decide (x.id = aid))).filter
        (fun x => decide (x.issue_id = asg.issue_id)) = [] →
      (delete_assignment db actor aid).1.issues =
        setIssueStatus db.issues asg.issue_id IssueStatus.pending) ∧
    ((db.assignments.filter (fun x => ¬ decide (x.id = aid))).filter
        (fun x => decide (x.issue_id = asg.issue_id)) ≠ [] →
      (delete_assignment db actor aid).1.issues = db.issues) := by
  unfold delete_assignment
  rw [if_neg (not_not_intro hrole)]
  split
  · rename_i heq; rw [hex] at heq; cases heq
  · rename_i a2 tail heq; rw [hex] at heq; cases heq
    rw [if_neg hsup]
    refine ⟨rfl, ?_, ?_, ?_⟩
    · simp only []
      split <;> rfl
    · intro hempty
      simp only []
      rw [if_pos hempty]
    · intro hne
      simp only []
      rw [if_neg hne]

/-- Witness for C5: supervisor D deletes the sole assignment of the
in-progress issue 1; the issue reverts to `pending`. -/
theorem delete_assignment_empty_resets_pending_witness :
    (delete_assignment (DB.mk [supervisorD, staffS] [issueOneInProgress] [asgActive] [] [])
        supervisorD 3).2 = .ok () ∧
    (delete_assignment (DB.mk [supervisorD, staffS] [issueOneInProgress] [asgActive] [] [])
        supervisorD 3).1.issues =
      setIssueStatus [issueOneInProgress] 1 IssueStatus.pending := by
  have h := delete_assignment_empty_resets_pending
    (DB.mk [supervisorD, staffS] [issueOneInProgress] [asgActive] [] []) supervisorD 3
    asgActive [] (by decide) (Or.inr rfl) (by decide)
  exact ⟨h.1, h.2.2.1 (by decide)⟩

/-- C7: an admin's change-user-role call on a target whose current role is
`admin`, requesting a valid non-admin role, is rejected with the
last-admin error — and the store untouched — whenever at most one admin
profile exists. -/
theorem change_user_role_last_admin_guard
    (db : DB) (actor : Profile) (uid : String) (new_role : String)
    (hactor : actor.role = Role.admin)
    (r : Role) (hr : Role.ofString new_role = some r) (hnadmin : r ≠ Role.admin)
    (ex : Profile) (prest : List Profile)
    (hex : db.profiles.filter (fun p => decide (p.id = uid)) = ex :: prest)
    (hexadmin : ex.role = Role.admin)
    (hcount : (db.profiles.filter (fun p => decide (p.role = Role.admin))).length ≤ 1) :
    change_user_role db actor uid new_role =
      (db, .error ⟨400, "Cannot change role of the last admin user"⟩) := by
  have hstr : new_role ≠ "admin" := by
    intro h
    rw [h] at hr
    have hr2 : (some Role.admin : Option Role) = some r := hr
    injection hr2 with h2
    exact hnadmin h2.symm
  unfold change_user_role
  rw [if_neg (not_not_intro hactor)]
  split
  · rename_i heq; rw [hr] at heq; cases heq
  · rename_i r2 heq
    rw [hr] at heq
    injection heq with h2
    subst h2
    split
    · rename_i heq2; rw [hex] at heq2; cases heq2
    · rename_i p2 tail heq2
      rw [hex] at heq2
      cases heq2
      rw [if_pos ⟨hexadmin, hstr, hcount⟩]

/-- Witness for C7: the only profile is the calling admin; demoting it to
`citizen` is rejected and the store is unchanged. -/
theorem change_user_role_last_admin_guard_witness :
    change_user_role (DB.mk [adminOne] [] [] [] []) adminOne "adm-1" "citizen" =
      (DB.mk [adminOne] [] [] [] [],
       .error ⟨400, "Cannot change role of the last admin user"⟩) :=
  change_user_role_last_admin_guard (DB.mk [adminOne] [] [] [] []) adminOne "adm-1" "citizen"
    rfl Role.citizen rfl (by decide) adminOne [] (by decide) rfl (by decide)

/-- Shared helper: Python `round(0, 1)` is `0`. -/
theorem pyRound1_zero : pyRound1 0 = 0 := by
  unfold pyRound1 roundHalfEven
  norm_num

/-- C8: every entry of the workload-distribution response satisfies the
completion-rate contract: the rate is exactly `0` when the staff member
has no assignments (the division is never taken), and otherwise equals
`completed / total * 100` rounded to one decimal place (Python banker's
rounding, real arithmetic modelled exactly over `ℚ`). -/
theorem workload_completion_rate_spec
    (db : DB) (actor : Profile) (l : List WorkloadEntry) (e : WorkloadEntry)
    (hl : (get_workload_distribution db actor).2 = Except.ok l)
    (he : e ∈ l) :
    (e.total_assignments = 0 → e.completion_rate = 0) ∧
    (e.total_assignments ≠ 0 →
      e.completion_rate =
        pyRound1 ((e.completed_assignments : ℚ) / (e.total_assignments : ℚ) * 100)) := by
  unfold get_workload_distribution at hl
  by_cases hrole : ¬ (actor.role = Role.admin ∨ actor.role = Role.supervisor)
  · rw [if_pos hrole] at hl; cases hl
  · rw [if_neg hrole] at hl
    simp only [] at hl
    injection hl with hl2
    have hperm := List.perm_insertionSort
      (fun a b : WorkloadEntry => b.active_assignments ≤ a.active_assignments)
      (((if actor.role = Role.supervisor then
          db.profiles.filter (fun p =>
            decide (p.role = Role.staff) && decide (p.department = actor.department))
        else
          db.profiles.filter (fun p => decide (p.role = Role.staff)))).map
        (staffWorkloadEntry db))
    rw [hl2] at hperm
    have he2 := hperm.mem_iff.mp he
    rcases List.mem_map.mp he2 with ⟨s, hsmem, hse⟩
    subst hse
    constructor
    · intro h0
      have htot : db.assignments.filter (fun a => decide (a.staff_id = s.id)) = [] :=
        List.length_eq_zero.mp h0
      show pyRound1 _ = 0
      rw [if_neg (not_not_intro htot)]
      exact pyRound1_zero
    · intro hne
      have htot : db.assignments.filter (fun a => decide (a.staff_id = s.id)) ≠ [] := by
        intro h0
        apply hne
        show (db.assignments.filter (fun a => decide (a.staff_id = s.id))).length = 0
        rw [h0]
        rfl
      show pyRound1 _ = _
      rw [if_pos htot]
      rfl

/-- Witness for C8: staff S with no assignments appears in the admin's
workload distribution with a completion rate of exactly `0`. -/
theorem workload_completion_rate_spec_witness :
    (staffWorkloadEntry (DB.mk [adminOne, staffS] [] [] [] []) staffS).total_assignments = 0 ∧
    (staffWorkloadEntry (DB.mk [adminOne, staffS] [] [] [] []) staffS).completion_rate = 0 := by
  have h := workload_completion_rate_spec (DB.mk [adminOne, staffS] [] [] [] []) adminOne
    [staffWorkloadEntry (DB.mk [adminOne, staffS] [] [] [] []) staffS]
    (staffWorkloadEntry (DB.mk [adminOne, staffS] [] [] [] []) staffS)
    rfl (by simp)
  exact ⟨rfl, h.1 rfl⟩

end SihV4
